import Mathlib

/-!
Verification of the product-variant creation module
(saleor/graphql/product/mutations/product_variant/product_variant_create.py).

The Python code is shallowly embedded: the mutable registry of used attribute
values becomes explicit state passing, `ValidationError` raising becomes
`Except`/optional-error results, Django/graphene collaborators that are not in
the analysed sources are modelled from the specification and marked as such in
their doc comments.
-/

set_option autoImplicit false

namespace SaleorVariant

/-- Error codes of `ProductErrorCode` used by this module. -/
inductive ProductErrorCode where
  | ATTRIBUTE_CANNOT_BE_ASSIGNED
  | REQUIRED
  | INVALID
  | DUPLICATED_INPUT_ITEM
  | UNIQUE
  | NOT_FOUND
  deriving DecidableEq, Repr

/-- A raised `ValidationError`: optional field scoping (the Python code wraps
errors in a dict keyed by a field name), message, code and the `attributes`
entry of `params` when present. -/
structure VError where
  field : Option String
  message : String
  code : ProductErrorCode
  params_attributes : List String
  deriving DecidableEq, Repr

/-- Attribute input kinds (`AttributeInputType`); only membership in `FILE`
matters to this module. -/
inductive AttributeInputType where
  | DROPDOWN
  | MULTISELECT
  | FILE
  | REFERENCE
  | NUMERIC
  | RICH_TEXT
  | PLAIN_TEXT
  | SWATCH
  | BOOLEAN
  | DATE
  | DATE_TIME
  deriving DecidableEq, Repr

/-- An attribute row as seen by this module: primary key, input kind and the
`value_required` flag. -/
structure Attribute where
  pk : Nat
  input_type : AttributeInputType
  value_required : Bool
  deriving DecidableEq, Repr

/-- Cleaned per-attribute values (`AttrValuesInput`): the attribute's global
id, the literal values and an optional `file_url`. -/
structure AttrValuesInput where
  global_id : String
  values : List String
  file_url : Option String
  deriving DecidableEq, Repr

/-- A signature in the used-attribute-values registry: the insertion-ordered
association list underlying the Python `defaultdict(list)` mapping an
attribute's global id to its list of value identifiers. -/
def Sig : Type := List (String × List String)

instance : DecidableEq Sig := by
  unfold Sig
  infer_instance

/-- Trailing path segment of a url, the Python `file_url.split("/")[-1]`. -/
def last_url_segment (url : String) : String :=
  (url.splitOn "/").getLastD ""

/-- The per-attribute list of value identifiers computed inside the loop of
`validate_duplicated_attribute_values`: for a FILE-kind attribute the
slugified trailing path segment of `file_url` (empty list when absent),
otherwise the literal supplied values. The Django `slugify` collaborator is a
parameter `slug`. -/
def attr_value_ids (slug : String → String) (attr : Attribute)
    (attr_data : AttrValuesInput) : List String :=
  if attr.input_type = AttributeInputType.FILE then
    match attr_data.file_url with
    | some url => [slug (last_url_segment url)]
    | none => []
  else
    attr_data.values

/-- Append values under a key of an insertion-ordered association list:
`defaultdict(list)` indexing plus `.extend(values)` (the key is created even
when the extension is empty). -/
def extend_entry : List (String × List String) → String → List String →
    List (String × List String)
  | [], key, vs => [(key, vs)]
  | (k, ws) :: rest, key, vs =>
    if k = key then (k, ws ++ vs) :: rest
    else (k, ws) :: extend_entry rest key vs

/-- The signature built by the loop of `validate_duplicated_attribute_values`:
fold the cleaned assignment left-to-right, extending the entry of each
attribute's global id. -/
def build_signature (slug : String → String)
    (attributes_data : List (Attribute × AttrValuesInput)) : Sig :=
  attributes_data.foldl
    (fun acc p => extend_entry acc p.2.global_id (attr_value_ids slug p.1 p.2))
    []

/-- Python `dict` equality on the association-list representation: both maps
agree on every key (value lists compared as lists, order sensitive). -/
def dict_eq (a b : Sig) : Bool :=
  List.all a (fun p => decide (List.lookup p.1 b = some p.2)) &&
    List.all b (fun p => decide (List.lookup p.1 a = some p.2))

/-- Embedding of `validate_duplicated_attribute_values`: returns the registry
after the call together with the raised error, if any. On a structural match
with a registry entry it raises `DUPLICATED_INPUT_ITEM` with the signature's
keys as params and leaves the registry untouched; otherwise it appends the
signature. -/
def validate_duplicated_attribute_values (slug : String → String)
    (attributes_data : List (Attribute × AttrValuesInput))
    (used_attribute_values : List Sig) : List Sig × Option VError :=
  let attribute_values := build_signature slug attributes_data
  if used_attribute_values.any (fun s => dict_eq s attribute_values) then
    (used_attribute_values,
      some ⟨none, "Duplicated attribute values for product variant.",
        ProductErrorCode.DUPLICATED_INPUT_ITEM,
        attribute_values.map Prod.fst⟩)
  else
    (used_attribute_values ++ [attribute_values], none)

/-- A `StockInput`: warehouse global id and quantity. -/
structure StockInput where
  warehouse : String
  quantity : Int
  deriving DecidableEq, Repr

/-- A raw `AttributeValueInput` as it appears in the mutation input: the
attribute's global id, literal values and optional `file_url`. -/
structure AttributeValueInput where
  id : String
  values : List String
  file_url : Option String
  deriving DecidableEq, Repr

/-- A product type: the `has_variants` flag and its eligible variant
attributes. -/
structure ProductType where
  has_variants : Bool
  variant_attributes : List Attribute
  deriving DecidableEq, Repr

/-- Modelled from the spec: graphene's `Node.to_global_id`, an injective
encoding of a type name and primary key into a global id string. -/
def to_global_id (type_name : String) (pk : Nat) : String :=
  type_name ++ ":" ++ toString pk

/-- Modelled from the spec: `get_duplicated_values` (a core collaborator
absent from the sources) returns the set of values occurring more than once
in the list. -/
def get_duplicated_values (values : List String) : List String :=
  (values.filter (fun v => 1 < values.count v)).dedup

/-- Embedding of `check_for_duplicates_in_stocks`: extract the warehouse ids
and fail with `UNIQUE` under field `stocks` when any repeats, the message
listing the duplicated ids joined by a comma. -/
def check_for_duplicates_in_stocks (stocks_data : List StockInput) :
    Except VError Unit :=
  let warehouse_ids := stocks_data.map StockInput.warehouse
  let duplicates := get_duplicated_values warehouse_ids
  if duplicates = [] then Except.ok ()
  else
    Except.error ⟨some "stocks",
      "Duplicated warehouse ID: " ++ String.intercalate ", " duplicates,
      ProductErrorCode.UNIQUE, []⟩

/-- The negative-weight check of `clean_input`. -/
def clean_weight_check (weight : Option Int) : Except VError Unit :=
  match weight with
  | some w =>
    if w < 0 then
      Except.error ⟨some "weight",
        "Product variant can't have negative weight.",
        ProductErrorCode.INVALID, []⟩
    else Except.ok ()
  | none => Except.ok ()

/-- The quantity-limit check of `clean_input`. -/
def clean_quantity_check (quantity_limit_per_customer : Option Int) :
    Except VError Unit :=
  match quantity_limit_per_customer with
  | some q =>
    if q < 1 then
      Except.error ⟨some "quantity_limit_per_customer",
        "Product variant can't have quantity_limit_per_customer lower than 1.",
        ProductErrorCode.INVALID, []⟩
    else Except.ok ()
  | none => Except.ok ()

/-- Modelled from the spec: `AttributeAssignmentMixin.clean_input` (an
attribute-utils collaborator absent from the sources) resolves each supplied
input against the product type's eligible attribute set and pairs it with its
`Attribute`, producing the canonical cleaned assignment; an unresolvable id
is a not-found failure. -/
def clean_attributes (product_type : ProductType) :
    List AttributeValueInput → Except VError (List (Attribute × AttrValuesInput))
  | [] => Except.ok []
  | raw :: rest =>
    match product_type.variant_attributes.find?
        (fun a => to_global_id "Attribute" a.pk == raw.id) with
    | some a =>
      match clean_attributes product_type rest with
      | Except.ok tl =>
        Except.ok ((a, ⟨raw.id, raw.values, raw.file_url⟩) :: tl)
      | Except.error e => Except.error e
    | none =>
      Except.error ⟨none, "Could not resolve to a node.",
        ProductErrorCode.NOT_FOUND, [raw.id]⟩

/-- The eligible global ids of a product type's variant attributes
(`variant_attributes_ids` in `clean_input`). -/
def variant_attributes_ids (product_type : ProductType) : List String :=
  product_type.variant_attributes.map (fun a => to_global_id "Attribute" a.pk)

/-- The set difference of supplied attribute ids against the eligible ids
(`invalid_attributes` in `clean_input`), as a duplicate-free list. -/
def invalid_attributes (product_type : ProductType)
    (attributes : List AttributeValueInput) : List String :=
  ((attributes.map AttributeValueInput.id).filter
    (fun i => !(variant_attributes_ids product_type).contains i)).dedup

/-- The eligibility check of `clean_input` (lines 205-219): fail with
`ATTRIBUTE_CANNOT_BE_ASSIGNED` reporting the offending ids when the
difference is non-empty. -/
def attribute_eligibility_check (product_type : ProductType)
    (attributes : List AttributeValueInput) : Except VError Unit :=
  if invalid_attributes product_type attributes = [] then Except.ok ()
  else
    Except.error ⟨none, "Given attributes are not a variant attributes.",
      ProductErrorCode.ATTRIBUTE_CANNOT_BE_ASSIGNED,
      invalid_attributes product_type attributes⟩

/-- The Python `raise ValidationError({"attributes": exc})` wrapper around
the try block in `clean_input`: errors get scoped under the `attributes`
field. -/
def wrap_attributes_field : Except VError Unit → Except VError Unit
  | Except.ok _ => Except.ok ()
  | Except.error e => Except.error { e with field := some "attributes" }

/-- The `has_variants` branch of `clean_input` (lines 222-251): for a
configurable product type, clean and duplicate-validate the attributes when
supplied, or require them on creation when some eligible attribute is
`value_required`; for a non-configurable type, reject any supplied
attributes with `INVALID`. -/
def has_variants_branch (slug : String → String)
    (product_type : ProductType) (instance_pk : Option Nat)
    (used_attribute_values : List Sig)
    (attributes : List AttributeValueInput) : Except VError Unit :=
  if product_type.has_variants then
    wrap_attributes_field
      (if attributes ≠ [] then
        match clean_attributes product_type attributes with
        | Except.ok cleaned_attributes =>
          match (validate_duplicated_attribute_values slug
              cleaned_attributes used_attribute_values).2 with
          | some e => Except.error e
          | none => Except.ok ()
        | Except.error e => Except.error e
      else if instance_pk = none ∧
          (attributes = [] ∧
            product_type.variant_attributes.filter Attribute.value_required ≠ []) then
        Except.error ⟨none, "All required attributes must take a value.",
          ProductErrorCode.REQUIRED, []⟩
      else Except.ok ())
  else if attributes ≠ [] then
    Except.error ⟨none,
      "Cannot assign attributes for product type without variants",
      ProductErrorCode.INVALID, []⟩
  else Except.ok ()

/-- The cleaned-input fields of the mutation that this module's `clean_input`
inspects (weight, quantity limit, stocks, raw attributes). An absent
attributes field and an empty list coincide (both falsy in Python). -/
structure CleanInputData where
  weight : Option Int
  quantity_limit_per_customer : Option Int
  stocks : List StockInput
  attributes : List AttributeValueInput
  deriving DecidableEq, Repr

/-- Embedding of `clean_input`: the weight, quantity-limit and stocks checks
in source order, then the attribute-eligibility check, then the
`has_variants` branch. The product type and the used-attribute-values
registry are inputs (the source derives both from the instance or the
`product` field before these checks). -/
def clean_input (slug : String → String) (product_type : ProductType)
    (instance_pk : Option Nat) (used_attribute_values : List Sig)
    (data : CleanInputData) : Except VError Unit :=
  match clean_weight_check data.weight with
  | Except.error e => Except.error e
  | Except.ok _ =>
    match clean_quantity_check data.quantity_limit_per_customer with
    | Except.error e => Except.error e
    | Except.ok _ =>
      match (if data.stocks ≠ [] then
          check_for_duplicates_in_stocks data.stocks
        else Except.ok ()) with
      | Except.error e => Except.error e
      | Except.ok _ =>
        match attribute_eligibility_check product_type data.attributes with
        | Except.error e => Except.error e
        | Except.ok _ =>
          has_variants_branch slug product_type instance_pk
            used_attribute_values data.attributes

/-- Lifecycle events emitted at the end of `save`. -/
inductive VariantEvent where
  | created
  | updated
  deriving DecidableEq, Repr

/-- The observable state touched by `save`: the variant row (pk, name), the
parent product's default-variant pointer and log of its `save(update_fields)`
calls, the price-recalculation queue, stock rows, the persisted attribute
assignment, the search-vector flag and the emitted events. `next_pk` is the
key the database would assign on insert. -/
structure SaveState where
  instance_pk : Option Nat
  instance_name : Option String
  product_id : Nat
  product_default_variant : Option Nat
  product_saves : List (List String)
  price_task_queue : List Nat
  stock_rows : List (String × Int)
  attr_links : Option (List (Attribute × AttrValuesInput))
  search_vector_updated : Bool
  events : List VariantEvent
  next_pk : Nat
  deriving DecidableEq, Repr

/-- The cleaned input consumed by `save`: stocks, cleaned attributes and the
sku used for name generation. -/
structure CleanedInput where
  stocks : List StockInput
  attributes : List (Attribute × AttrValuesInput)
  sku : Option String
  deriving DecidableEq, Repr

/-- External collaborators of `save` that may fail or compute values:
warehouse resolution (`get_nodes_or_error`), persisting the attribute
assignment (`AttributeAssignmentMixin.save`) and name generation
(`generate_and_set_variant_name`). -/
structure SaveEnv where
  resolve_warehouses : List String → Except VError (List String)
  attr_save : List (Attribute × AttrValuesInput) → Except VError Unit
  gen_name : Option String → String

/-- Modelled from the spec: `create_stocks` (a product-utils collaborator
absent from the sources) creates one stock row per resolved warehouse. -/
def create_stocks (s : SaveState) (stocks : List StockInput)
    (warehouses : List String) : SaveState :=
  { s with stock_rows :=
      s.stock_rows ++ List.zip warehouses (stocks.map StockInput.quantity) }

/-- The body of `save` (source lines 322-350), run inside the transaction:
persist the variant row, set the default variant if unset (persisting only
`default_variant` and `updated_at`), enqueue price recalculation, create
stocks, persist attributes, derive a name if absent, refresh the search
vector, and emit created/updated according to whether the instance had a pk
before persisting. -/
def stock_step (env : SaveEnv) (cleaned_input : CleanedInput)
    (s : SaveState) : Except VError SaveState :=
  if cleaned_input.stocks ≠ [] then
    match env.resolve_warehouses
        (cleaned_input.stocks.map StockInput.warehouse) with
    | Except.ok warehouses =>
      Except.ok (create_stocks s cleaned_input.stocks warehouses)
    | Except.error e => Except.error e
  else Except.ok s

def attr_step (env : SaveEnv) (cleaned_input : CleanedInput)
    (s : SaveState) : Except VError SaveState :=
  if cleaned_input.attributes ≠ [] then
    match env.attr_save cleaned_input.attributes with
    | Except.ok _ =>
      Except.ok { s with attr_links := some cleaned_input.attributes }
    | Except.error e => Except.error e
  else Except.ok s

def save_steps (env : SaveEnv) (cleaned_input : CleanedInput)
    (s0 : SaveState) : Except VError SaveState :=
  let new_variant := s0.instance_pk = none
  let pk := s0.instance_pk.getD s0.next_pk
  let s1 := { s0 with instance_pk := some pk }
  let s2 :=
    if s1.product_default_variant = none then
      { s1 with product_default_variant := some pk,
                product_saves :=
                  s1.product_saves ++ [["default_variant", "updated_at"]] }
    else s1
  let s3 := { s2 with price_task_queue := s2.price_task_queue ++ [s2.product_id] }
  match stock_step env cleaned_input s3 with
  | Except.error e => Except.error e
  | Except.ok s4 =>
    match attr_step env cleaned_input s4 with
    | Except.error e => Except.error e
    | Except.ok s5 =>
      let s6 :=
        if (s5.instance_name.getD "") = "" then
          { s5 with instance_name := some (env.gen_name cleaned_input.sku) }
        else s5
      let s7 := { s6 with search_vector_updated := true }
      let event :=
        if new_variant then VariantEvent.created else VariantEvent.updated
      Except.ok { s7 with events := s7.events ++ [event] }

/-- Modelled from the spec: `traced_atomic_transaction` makes the enclosed
steps atomic — on success the new state is committed, on any failure every
step is rolled back and the prior state remains the observable one. -/
def save_transaction (env : SaveEnv) (cleaned_input : CleanedInput)
    (s0 : SaveState) : SaveState × Option VError :=
  match save_steps env cleaned_input s0 with
  | Except.ok s => (s, none)
  | Except.error e => (s0, some e)

/-! Helper lemmas about signatures and the registry. -/

theorem extend_entry_of_not_mem (acc : List (String × List String))
    (key : String) (vs : List String) (h : key ∉ acc.map Prod.fst) :
    extend_entry acc key vs = acc ++ [(key, vs)] := by
  induction acc with
  | nil => rfl
  | cons p rest ih =>
    obtain ⟨k, ws⟩ := p
    simp only [List.map_cons, List.mem_cons, not_or] at h
    simp only [extend_entry, if_neg (Ne.symm h.1), List.cons_append,
      ih h.2]

theorem build_signature_foldl_eq_map (slug : String → String)
    (attributes_data : List (Attribute × AttrValuesInput)) :
    ∀ acc : List (String × List String),
      (attributes_data.map (fun p => p.2.global_id)).Nodup →
      (∀ p ∈ attributes_data, p.2.global_id ∉ acc.map Prod.fst) →
      attributes_data.foldl
          (fun acc p =>
            extend_entry acc p.2.global_id (attr_value_ids slug p.1 p.2)) acc =
        acc ++ attributes_data.map
          (fun p => (p.2.global_id, attr_value_ids slug p.1 p.2)) := by
  induction attributes_data with
  | nil => intro acc _ _; simp
  | cons p rest ih =>
    intro acc hnd hdisj
    simp only [List.map_cons, List.nodup_cons] at hnd
    simp only [List.foldl_cons]
    rw [extend_entry_of_not_mem acc p.2.global_id _
      (hdisj p (List.mem_cons_self p rest))]
    rw [ih (acc ++ [(p.2.global_id, attr_value_ids slug p.1 p.2)]) hnd.2]
    · simp
    · intro q hq
      simp only [List.map_append, List.mem_append, List.map_cons,
        List.map_nil, List.mem_singleton, not_or]
      exact ⟨hdisj q (List.mem_cons_of_mem p hq),
        fun hc => hnd.1 (hc ▸ List.mem_map_of_mem (fun p => p.2.global_id) hq)⟩

theorem build_signature_eq_map (slug : String → String)
    (attributes_data : List (Attribute × AttrValuesInput))
    (hnd : (attributes_data.map (fun p => p.2.global_id)).Nodup) :
    build_signature slug attributes_data =
      attributes_data.map
        (fun p => (p.2.global_id, attr_value_ids slug p.1 p.2)) := by
  have := build_signature_foldl_eq_map slug attributes_data [] hnd
    (by intro p _; simp)
  simpa [build_signature] using this

theorem mem_keys_extend_entry (acc : List (String × List String))
    (key : String) (vs : List String) (x : String) :
    x ∈ (extend_entry acc key vs).map Prod.fst ↔
      x ∈ acc.map Prod.fst ∨ x = key := by
  induction acc with
  | nil => simp [extend_entry]
  | cons p rest ih =>
    obtain ⟨k, ws⟩ := p
    by_cases hk : k = key
    · subst hk
      have hstep : extend_entry ((k, ws) :: rest) k vs = (k, ws ++ vs) :: rest := by
        simp [extend_entry]
      rw [hstep]
      simp only [List.map_cons, List.mem_cons]
      tauto
    · simp only [extend_entry, if_neg hk, List.map_cons, List.mem_cons, ih]
      tauto

theorem nodup_keys_extend_entry (acc : List (String × List String))
    (key : String) (vs : List String)
    (h : (acc.map Prod.fst).Nodup) :
    ((extend_entry acc key vs).map Prod.fst).Nodup := by
  induction acc with
  | nil => simp [extend_entry]
  | cons p rest ih =>
    obtain ⟨k, ws⟩ := p
    simp only [List.map_cons, List.nodup_cons] at h
    by_cases hk : k = key
    · subst hk
      simpa [extend_entry] using h
    · simp only [extend_entry, if_neg hk, List.map_cons, List.nodup_cons]
      refine ⟨fun hc => ?_, ih h.2⟩
      rcases (mem_keys_extend_entry rest key vs k).mp hc with hm | he
      · exact h.1 hm
      · exact hk he

theorem build_signature_keys_nodup (slug : String → String)
    (attributes_data : List (Attribute × AttrValuesInput)) :
    ((build_signature slug attributes_data).map Prod.fst).Nodup := by
  suffices h : ∀ (l : List (Attribute × AttrValuesInput))
      (acc : List (String × List String)), (acc.map Prod.fst).Nodup →
      ((l.foldl (fun acc p =>
          extend_entry acc p.2.global_id (attr_value_ids slug p.1 p.2))
        acc).map Prod.fst).Nodup by
    exact h attributes_data [] (by simp)
  intro l
  induction l with
  | nil => intro acc hacc; simpa using hacc
  | cons p rest ih =>
    intro acc hacc
    simp only [List.foldl_cons]
    exact ih _ (nodup_keys_extend_entry acc p.2.global_id _ hacc)

theorem lookup_eq_some_of_nodup_keys (s : List (String × List String))
    (k : String) (v : List String)
    (hnd : (s.map Prod.fst).Nodup) (hmem : (k, v) ∈ s) :
    List.lookup k s = some v := by
  induction s with
  | nil => cases hmem
  | cons p rest ih =>
    obtain ⟨k', v'⟩ := p
    simp only [List.map_cons, List.nodup_cons] at hnd
    rcases List.mem_cons.mp hmem with he | hm
    · obtain ⟨rfl, rfl⟩ := Prod.mk.injEq .. ▸ he
      simp [List.lookup]
    · have hkne : k ≠ k' := by
        intro hc
        subst hc
        exact hnd.1 (List.mem_map_of_mem Prod.fst hm)
      simp only [List.lookup, beq_eq_false_iff_ne.mpr hkne]
      exact ih hnd.2 hm

theorem dict_eq_self_of_nodup_keys (s : Sig)
    (hnd : (s.map Prod.fst).Nodup) : dict_eq s s = true := by
  simp only [dict_eq, Bool.and_eq_true, List.all_eq_true, decide_eq_true_eq]
  constructor <;>
    · intro p hp
      exact lookup_eq_some_of_nodup_keys s p.1 p.2 hnd hp

/-! Claim theorems about the duplicate-configuration detector. -/

/-- C1: `validate_duplicated_attribute_values` builds a signature mapping
each attribute's global id to its list of value identifiers (for a FILE-kind
attribute the single slugified trailing path segment of `file_url`, or the
empty list without a `file_url`; otherwise the literal values in order with
duplicates kept), and raises `DUPLICATED_INPUT_ITEM` reporting the
conflicting attribute ids exactly when that signature is structurally equal
to some signature already in the registry. -/
theorem validate_duplicated_attribute_values_spec (slug : String → String)
    (attributes_data : List (Attribute × AttrValuesInput))
    (used_attribute_values : List Sig)
    (hnd : (attributes_data.map (fun p => p.2.global_id)).Nodup) :
    build_signature slug attributes_data =
      attributes_data.map
        (fun p => (p.2.global_id, attr_value_ids slug p.1 p.2)) ∧
    ((validate_duplicated_attribute_values slug attributes_data
        used_attribute_values).2.isSome ↔
      ∃ s ∈ used_attribute_values,
        dict_eq s (build_signature slug attributes_data) = true) ∧
    (∀ e, (validate_duplicated_attribute_values slug attributes_data
        used_attribute_values).2 = some e →
      e.code = ProductErrorCode.DUPLICATED_INPUT_ITEM ∧
      e.params_attributes =
        (build_signature slug attributes_data).map Prod.fst) := by
  refine ⟨build_signature_eq_map slug attributes_data hnd, ?_, ?_⟩
  · unfold validate_duplicated_attribute_values
    by_cases hc : used_attribute_values.any
        (fun s => dict_eq s (build_signature slug attributes_data)) = true
    · simp only [hc, if_true, Option.isSome_some, true_iff]
      simpa using hc
    · simp only [hc, if_false, Option.isSome_none, false_iff]
      simpa using hc
  · intro e he
    unfold validate_duplicated_attribute_values at he
    by_cases hc : used_attribute_values.any
        (fun s => dict_eq s (build_signature slug attributes_data)) = true
    · simp only [hc, if_true] at he
      obtain rfl := Option.some.injEq .. ▸ he
      exact ⟨rfl, rfl⟩
    · simp [hc] at he

/-- Witness for C1 at a concrete FILE + DROPDOWN assignment. -/
theorem validate_duplicated_attribute_values_spec_witness :
    build_signature (fun s => s)
        [(⟨1, AttributeInputType.FILE, true⟩,
            ⟨"Attribute:1", [], some "media/pic.png"⟩),
          (⟨2, AttributeInputType.DROPDOWN, false⟩,
            ⟨"Attribute:2", ["red", "red"], none⟩)] =
      ([(⟨1, AttributeInputType.FILE, true⟩,
            ⟨"Attribute:1", [], some "media/pic.png"⟩),
          (⟨2, AttributeInputType.DROPDOWN, false⟩,
            ⟨"Attribute:2", ["red", "red"], none⟩)] :
          List (Attribute × AttrValuesInput)).map
        (fun p => (p.2.global_id, attr_value_ids (fun s => s) p.1 p.2)) ∧
    ((validate_duplicated_attribute_values (fun s => s)
        [(⟨1, AttributeInputType.FILE, true⟩,
            ⟨"Attribute:1", [], some "media/pic.png"⟩),
          (⟨2, AttributeInputType.DROPDOWN, false⟩,
            ⟨"Attribute:2", ["red", "red"], none⟩)]
        [[("Attribute:1", ["pic.png"]), ("Attribute:2", ["red", "red"])]]).2.isSome ↔
      ∃ s ∈ [[("Attribute:1", ["pic.png"]), ("Attribute:2", ["red", "red"])]],
        dict_eq s (build_signature (fun s => s)
          [(⟨1, AttributeInputType.FILE, true⟩,
              ⟨"Attribute:1", [], some "media/pic.png"⟩),
            (⟨2, AttributeInputType.DROPDOWN, false⟩,
              ⟨"Attribute:2", ["red", "red"], none⟩)]) = true) ∧
    (∀ e, (validate_duplicated_attribute_values (fun s => s)
        [(⟨1, AttributeInputType.FILE, true⟩,
            ⟨"Attribute:1", [], some "media/pic.png"⟩),
          (⟨2, AttributeInputType.DROPDOWN, false⟩,
            ⟨"Attribute:2", ["red", "red"], none⟩)]
        [[("Attribute:1", ["pic.png"]), ("Attribute:2", ["red", "red"])]]).2 = some e →
      e.code = ProductErrorCode.DUPLICATED_INPUT_ITEM ∧
      e.params_attributes =
        (build_signature (fun s => s)
          [(⟨1, AttributeInputType.FILE, true⟩,
              ⟨"Attribute:1", [], some "media/pic.png"⟩),
            (⟨2, AttributeInputType.DROPDOWN, false⟩,
              ⟨"Attribute:2", ["red", "red"], none⟩)]).map Prod.fst) :=
  validate_duplicated_attribute_values_spec (fun s => s) _ _ (by decide)

/-- C2: a successful validation appends exactly the candidate's signature to
the registry, and validating a second candidate with the identical signature
against the grown registry fails with `DUPLICATED_INPUT_ITEM` — candidates
are duplicate-aware of earlier accepted candidates in the same call. -/
theorem registry_append_on_accept (slug : String → String)
    (attributes_data : List (Attribute × AttrValuesInput))
    (used_attribute_values used' : List Sig)
    (h : validate_duplicated_attribute_values slug attributes_data
        used_attribute_values = (used', none)) :
    used' = used_attribute_values ++ [build_signature slug attributes_data] ∧
    ∃ e, (validate_duplicated_attribute_values slug attributes_data used').2 =
        some e ∧
      e.code = ProductErrorCode.DUPLICATED_INPUT_ITEM := by
  unfold validate_duplicated_attribute_values at h
  by_cases hc : used_attribute_values.any
      (fun s => dict_eq s (build_signature slug attributes_data)) = true
  · rw [if_pos hc] at h
    cases Prod.mk.injEq .. ▸ h |>.2
  · rw [if_neg hc] at h
    have hused : used' =
        used_attribute_values ++ [build_signature slug attributes_data] :=
      (Prod.mk.injEq .. ▸ h).1.symm
    refine ⟨hused, ?_⟩
    unfold validate_duplicated_attribute_values
    have hany : used'.any
        (fun s => dict_eq s (build_signature slug attributes_data)) = true := by
      rw [hused, List.any_append]
      simp only [List.any_cons, List.any_nil, Bool.or_eq_true]
      right; left
      exact dict_eq_self_of_nodup_keys _
        (build_signature_keys_nodup slug attributes_data)
    rw [if_pos hany]
    exact ⟨_, rfl, rfl⟩

/-- Witness for C2: a first candidate is accepted into the empty registry,
and the same candidate then fails against the grown registry. -/
theorem registry_append_on_accept_witness :
    ([[("Attribute:2", ["red", "red"])]] : List Sig) =
      [] ++ [build_signature (fun s => s)
        [(⟨2, AttributeInputType.DROPDOWN, false⟩,
            ⟨"Attribute:2", ["red", "red"], none⟩)]] ∧
    ∃ e, (validate_duplicated_attribute_values (fun s => s)
        [(⟨2, AttributeInputType.DROPDOWN, false⟩,
            ⟨"Attribute:2", ["red", "red"], none⟩)]
        [[("Attribute:2", ["red", "red"])]]).2 = some e ∧
      e.code = ProductErrorCode.DUPLICATED_INPUT_ITEM :=
  registry_append_on_accept (fun s => s) _ [] _ rfl

/-- C9: a rejected candidate leaves the registry exactly as it was — the
signature is appended only on acceptance. -/
theorem registry_unchanged_on_reject (slug : String → String)
    (attributes_data : List (Attribute × AttrValuesInput))
    (used_attribute_values : List Sig) (e : VError)
    (h : (validate_duplicated_attribute_values slug attributes_data
        used_attribute_values).2 = some e) :
    (validate_duplicated_attribute_values slug attributes_data
        used_attribute_values).1 = used_attribute_values := by
  unfold validate_duplicated_attribute_values at h ⊢
  by_cases hc : used_attribute_values.any
      (fun s => dict_eq s (build_signature slug attributes_data)) = true
  · rw [if_pos hc]
  · rw [if_neg hc] at h
    cases h

/-- Witness for C9 at a concrete rejected candidate. -/
theorem registry_unchanged_on_reject_witness :
    (validate_duplicated_attribute_values (fun s => s)
        [(⟨2, AttributeInputType.DROPDOWN, false⟩,
            ⟨"Attribute:2", ["red", "red"], none⟩)]
        [[("Attribute:2", ["red", "red"])]]).1 =
      [[("Attribute:2", ["red", "red"])]] :=
  registry_unchanged_on_reject (fun s => s) _ _
    ⟨none, "Duplicated attribute values for product variant.",
      ProductErrorCode.DUPLICATED_INPUT_ITEM, ["Attribute:2"]⟩ rfl

/-! Helper lemmas about `clean_input`. -/

theorem validate_error_code (slug : String → String)
    (attributes_data : List (Attribute × AttrValuesInput))
    (used_attribute_values : List Sig) (e : VError)
    (h : (validate_duplicated_attribute_values slug attributes_data
        used_attribute_values).2 = some e) :
    e.code = ProductErrorCode.DUPLICATED_INPUT_ITEM := by
  unfold validate_duplicated_attribute_values at h
  by_cases hc : used_attribute_values.any
      (fun s => dict_eq s (build_signature slug attributes_data)) = true
  · rw [if_pos hc] at h
    obtain rfl := Option.some.injEq .. ▸ h
    rfl
  · rw [if_neg hc] at h
    cases h

theorem clean_attributes_error_code (product_type : ProductType)
    (attributes : List AttributeValueInput) (e : VError)
    (h : clean_attributes product_type attributes = Except.error e) :
    e.code = ProductErrorCode.NOT_FOUND := by
  induction attributes with
  | nil => cases h
  | cons raw rest ih =>
    unfold clean_attributes at h
    cases hfind : product_type.variant_attributes.find?
        (fun a => to_global_id "Attribute" a.pk == raw.id) with
    | some a =>
      rw [hfind] at h
      cases hrec : clean_attributes product_type rest with
      | ok tl => rw [hrec] at h; cases h
      | error e2 =>
        rw [hrec] at h
        obtain rfl := Except.error.injEq .. ▸ h
        exact ih hrec
    | none =>
      rw [hfind] at h
      obtain rfl := Except.error.injEq .. ▸ h
      rfl

theorem has_variants_branch_code_ne (slug : String → String)
    (product_type : ProductType) (instance_pk : Option Nat)
    (used_attribute_values : List Sig)
    (attributes : List AttributeValueInput) (e : VError)
    (h : has_variants_branch slug product_type instance_pk
        used_attribute_values attributes = Except.error e) :
    e.code ≠ ProductErrorCode.ATTRIBUTE_CANNOT_BE_ASSIGNED := by
  unfold has_variants_branch at h
  split at h
  · unfold wrap_attributes_field at h
    split at h
    · cases h
    next e0 heq =>
      obtain rfl := Except.error.injEq .. ▸ h
      show e0.code ≠ ProductErrorCode.ATTRIBUTE_CANNOT_BE_ASSIGNED
      split at heq
      · split at heq
        next cleaned hca =>
          split at heq
          next e2 hval =>
            obtain rfl := Except.error.injEq .. ▸ heq
            rw [validate_error_code slug cleaned used_attribute_values e2 hval]
            intro hc
            cases hc
          · cases heq
        next e2 hca =>
          obtain rfl := Except.error.injEq .. ▸ heq
          rw [clean_attributes_error_code product_type attributes e2 hca]
          intro hc
          cases hc
      · split at heq
        · obtain rfl := Except.error.injEq .. ▸ heq
          intro hc
          cases hc
        · cases heq
  · split at h
    · obtain rfl := Except.error.injEq .. ▸ h
      intro hc
      cases hc
    · cases h

theorem stocks_check_ok (stocks : List StockInput)
    (hs : get_duplicated_values (stocks.map StockInput.warehouse) = []) :
    (if stocks ≠ [] then check_for_duplicates_in_stocks stocks
      else Except.ok ()) = Except.ok () := by
  by_cases hne : stocks ≠ []
  · rw [if_pos hne]
    unfold check_for_duplicates_in_stocks
    rw [if_pos hs]
  · rw [if_neg hne]

theorem clean_input_after_scalar_checks (slug : String → String)
    (product_type : ProductType) (instance_pk : Option Nat)
    (used_attribute_values : List Sig) (data : CleanInputData)
    (hw : clean_weight_check data.weight = Except.ok ())
    (hq : clean_quantity_check data.quantity_limit_per_customer = Except.ok ())
    (hs : get_duplicated_values (data.stocks.map StockInput.warehouse) = []) :
    clean_input slug product_type instance_pk used_attribute_values data =
      (match attribute_eligibility_check product_type data.attributes with
        | Except.error e => Except.error e
        | Except.ok _ =>
          has_variants_branch slug product_type instance_pk
            used_attribute_values data.attributes) := by
  unfold clean_input
  rw [hw, hq, stocks_check_ok data.stocks hs]

theorem mem_invalid_attributes (product_type : ProductType)
    (attributes : List AttributeValueInput) (x : String) :
    x ∈ invalid_attributes product_type attributes ↔
      (x ∈ attributes.map AttributeValueInput.id ∧
        x ∉ variant_attributes_ids product_type) := by
  unfold invalid_attributes
  rw [List.mem_dedup, List.mem_filter]
  constructor
  · rintro ⟨hm, hc⟩
    refine ⟨hm, fun hmem => ?_⟩
    rw [Bool.not_eq_true', ← Bool.not_eq_true] at hc
    exact hc (List.elem_iff.mpr hmem)
  · rintro ⟨hm, hnm⟩
    refine ⟨hm, ?_⟩
    rw [Bool.not_eq_true', ← Bool.not_eq_true]
    intro hc
    exact hnm (List.elem_iff.mp hc)

theorem attribute_eligibility_check_error (product_type : ProductType)
    (attributes : List AttributeValueInput)
    (hbad : invalid_attributes product_type attributes ≠ []) :
    attribute_eligibility_check product_type attributes =
      Except.error ⟨none, "Given attributes are not a variant attributes.",
        ProductErrorCode.ATTRIBUTE_CANNOT_BE_ASSIGNED,
        invalid_attributes product_type attributes⟩ := by
  unfold attribute_eligibility_check
  rw [if_neg hbad]

/-! Claim theorems about `clean_input`. -/

/-- C3: after the scalar checks pass, `clean_input` computes the set
difference between the supplied attribute ids and the product type's
eligible variant attribute ids; it raises `ATTRIBUTE_CANNOT_BE_ASSIGNED`
reporting exactly the ids in that difference when the difference is
non-empty, and raises no error with that code when every supplied id is
eligible. -/
theorem clean_input_attribute_eligibility (slug : String → String)
    (product_type : ProductType) (instance_pk : Option Nat)
    (used_attribute_values : List Sig) (data : CleanInputData)
    (hw : clean_weight_check data.weight = Except.ok ())
    (hq : clean_quantity_check data.quantity_limit_per_customer = Except.ok ())
    (hs : get_duplicated_values (data.stocks.map StockInput.warehouse) = []) :
    (∀ x, x ∈ invalid_attributes product_type data.attributes ↔
      (x ∈ data.attributes.map AttributeValueInput.id ∧
        x ∉ variant_attributes_ids product_type)) ∧
    (invalid_attributes product_type data.attributes ≠ [] →
      clean_input slug product_type instance_pk used_attribute_values data =
        Except.error ⟨none, "Given attributes are not a variant attributes.",
          ProductErrorCode.ATTRIBUTE_CANNOT_BE_ASSIGNED,
          invalid_attributes product_type data.attributes⟩) ∧
    (invalid_attributes product_type data.attributes = [] →
      ∀ e, clean_input slug product_type instance_pk used_attribute_values
          data = Except.error e →
        e.code ≠ ProductErrorCode.ATTRIBUTE_CANNOT_BE_ASSIGNED) := by
  refine ⟨mem_invalid_attributes product_type data.attributes, ?_, ?_⟩
  · intro hbad
    rw [clean_input_after_scalar_checks slug product_type instance_pk
      used_attribute_values data hw hq hs]
    rw [attribute_eligibility_check_error product_type data.attributes hbad]
  · intro hok e he
    rw [clean_input_after_scalar_checks slug product_type instance_pk
      used_attribute_values data hw hq hs] at he
    have helig : attribute_eligibility_check product_type data.attributes =
        Except.ok () := by
      unfold attribute_eligibility_check
      rw [if_pos hok]
    rw [helig] at he
    exact has_variants_branch_code_ne slug product_type instance_pk
      used_attribute_values data.attributes e he

/-- Witness for C3 at a concrete input with one ineligible id. -/
theorem clean_input_attribute_eligibility_witness :
    (∀ x, x ∈ invalid_attributes ⟨true, [⟨2, AttributeInputType.DROPDOWN, false⟩]⟩
        [⟨"X", [], none⟩] ↔
      (x ∈ ([⟨"X", [], none⟩] : List AttributeValueInput).map
          AttributeValueInput.id ∧
        x ∉ variant_attributes_ids
          ⟨true, [⟨2, AttributeInputType.DROPDOWN, false⟩]⟩)) ∧
    (invalid_attributes ⟨true, [⟨2, AttributeInputType.DROPDOWN, false⟩]⟩
        [⟨"X", [], none⟩] ≠ [] →
      clean_input (fun s => s) ⟨true, [⟨2, AttributeInputType.DROPDOWN, false⟩]⟩
          none [] ⟨none, none, [], [⟨"X", [], none⟩]⟩ =
        Except.error ⟨none, "Given attributes are not a variant attributes.",
          ProductErrorCode.ATTRIBUTE_CANNOT_BE_ASSIGNED,
          invalid_attributes ⟨true, [⟨2, AttributeInputType.DROPDOWN, false⟩]⟩
            [⟨"X", [], none⟩]⟩) ∧
    (invalid_attributes ⟨true, [⟨2, AttributeInputType.DROPDOWN, false⟩]⟩
        [⟨"X", [], none⟩] = [] →
      ∀ e, clean_input (fun s => s)
          ⟨true, [⟨2, AttributeInputType.DROPDOWN, false⟩]⟩ none []
          ⟨none, none, [], [⟨"X", [], none⟩]⟩ = Except.error e →
        e.code ≠ ProductErrorCode.ATTRIBUTE_CANNOT_BE_ASSIGNED) :=
  clean_input_attribute_eligibility (fun s => s)
    ⟨true, [⟨2, AttributeInputType.DROPDOWN, false⟩]⟩ none []
    ⟨none, none, [], [⟨"X", [], none⟩]⟩ rfl rfl rfl

/-- C10: the eligibility check runs before the `has_variants` branch: an
input with an ineligible attribute id fails with
`ATTRIBUTE_CANNOT_BE_ASSIGNED` for either value of `has_variants` — in
particular also when `has_variants = false` — so the INVALID, REQUIRED and
duplicate-signature checks are never reached. -/
theorem eligibility_check_precedes_variant_branch (slug : String → String)
    (variant_attrs : List Attribute) (instance_pk : Option Nat)
    (used_attribute_values : List Sig) (data : CleanInputData)
    (hw : clean_weight_check data.weight = Except.ok ())
    (hq : clean_quantity_check data.quantity_limit_per_customer = Except.ok ())
    (hs : get_duplicated_values (data.stocks.map StockInput.warehouse) = [])
    (hbad : invalid_attributes ⟨false, variant_attrs⟩ data.attributes ≠ []) :
    ∀ hv : Bool,
      clean_input slug ⟨hv, variant_attrs⟩ instance_pk used_attribute_values
          data =
        Except.error ⟨none, "Given attributes are not a variant attributes.",
          ProductErrorCode.ATTRIBUTE_CANNOT_BE_ASSIGNED,
          invalid_attributes ⟨false, variant_attrs⟩ data.attributes⟩ := by
  intro hv
  have hbad' : invalid_attributes ⟨hv, variant_attrs⟩ data.attributes ≠ [] :=
    hbad
  rw [clean_input_after_scalar_checks slug ⟨hv, variant_attrs⟩ instance_pk
    used_attribute_values data hw hq hs]
  rw [attribute_eligibility_check_error ⟨hv, variant_attrs⟩ data.attributes
    hbad']
  rfl

/-- Witness for C10, exercising the `has_variants = false` case of the
conclusion at a concrete ineligible input. -/
theorem eligibility_check_precedes_variant_branch_witness :
    clean_input (fun s => s) ⟨false, [⟨2, AttributeInputType.DROPDOWN, false⟩]⟩
        none [] ⟨none, none, [], [⟨"X", [], none⟩]⟩ =
      Except.error ⟨none, "Given attributes are not a variant attributes.",
        ProductErrorCode.ATTRIBUTE_CANNOT_BE_ASSIGNED,
        invalid_attributes ⟨false, [⟨2, AttributeInputType.DROPDOWN, false⟩]⟩
          [⟨"X", [], none⟩]⟩ :=
  eligibility_check_precedes_variant_branch (fun s => s)
    [⟨2, AttributeInputType.DROPDOWN, false⟩] none []
    ⟨none, none, [], [⟨"X", [], none⟩]⟩ rfl rfl rfl (by decide) false

/-- Counterexample to C4 as stated: with `has_variants = false` and a
non-empty attribute input whose id is ineligible, `clean_input` fails with
`ATTRIBUTE_CANNOT_BE_ASSIGNED`, not `INVALID` — the eligibility check fires
first. -/
theorem clean_input_invalid_code_cex :
    clean_input (fun s => s) ⟨false, []⟩ none []
        ⟨none, none, [], [⟨"X", [], none⟩]⟩ =
      Except.error ⟨none, "Given attributes are not a variant attributes.",
        ProductErrorCode.ATTRIBUTE_CANNOT_BE_ASSIGNED, ["X"]⟩ ∧
    ProductErrorCode.ATTRIBUTE_CANNOT_BE_ASSIGNED ≠
      ProductErrorCode.INVALID :=
  ⟨rfl, by decide⟩

/-- C4 as amended: provided every supplied attribute id is eligible, a
product type with `has_variants = false` rejects any non-empty attribute
input with `INVALID`; and with `has_variants = true`, a newly created
instance with no attributes supplied while some eligible variant attribute
has `value_required = true` fails with `REQUIRED`. -/
theorem clean_input_variants_flag_spec (slug : String → String)
    (product_type : ProductType) (instance_pk : Option Nat)
    (used_attribute_values : List Sig) (data : CleanInputData)
    (hw : clean_weight_check data.weight = Except.ok ())
    (hq : clean_quantity_check data.quantity_limit_per_customer = Except.ok ())
    (hs : get_duplicated_values (data.stocks.map StockInput.warehouse) = [])
    (helig : invalid_attributes product_type data.attributes = []) :
    (product_type.has_variants = false → data.attributes ≠ [] →
      clean_input slug product_type instance_pk used_attribute_values data =
        Except.error ⟨none,
          "Cannot assign attributes for product type without variants",
          ProductErrorCode.INVALID, []⟩) ∧
    (product_type.has_variants = true → instance_pk = none →
      data.attributes = [] →
      product_type.variant_attributes.filter Attribute.value_required ≠ [] →
      clean_input slug product_type instance_pk used_attribute_values data =
        Except.error ⟨some "attributes",
          "All required attributes must take a value.",
          ProductErrorCode.REQUIRED, []⟩) := by
  have hbase := clean_input_after_scalar_checks slug product_type instance_pk
    used_attribute_values data hw hq hs
  have hok : attribute_eligibility_check product_type data.attributes =
      Except.ok () := by
    unfold attribute_eligibility_check
    rw [if_pos helig]
  rw [hok] at hbase
  constructor
  · intro hvf hne
    rw [hbase]
    unfold has_variants_branch
    rw [hvf]
    simp only [Bool.false_eq_true, if_false, if_pos hne]
  · intro hvt hpk hattr hreq
    rw [hbase]
    unfold has_variants_branch
    rw [hvt, if_pos rfl]
    rw [if_neg (by simp [hattr]), if_pos ⟨hpk, hattr, hreq⟩]
    rfl

/-- Witness for C4's amended claim, exercising the REQUIRED side at a
concrete newly-created instance with a required attribute and no supplied
attributes. -/
theorem clean_input_variants_flag_spec_witness :
    clean_input (fun s => s) ⟨true, [⟨1, AttributeInputType.DROPDOWN, true⟩]⟩
        none [] ⟨none, none, [], []⟩ =
      Except.error ⟨some "attributes",
        "All required attributes must take a value.",
        ProductErrorCode.REQUIRED, []⟩ :=
  (clean_input_variants_flag_spec (fun s => s)
      ⟨true, [⟨1, AttributeInputType.DROPDOWN, true⟩]⟩ none []
      ⟨none, none, [], []⟩ rfl rfl rfl rfl).2 rfl rfl rfl (by decide)

/-! Claim theorem about the stocks duplicate check. -/

theorem get_duplicated_values_eq_nil_iff (values : List String) :
    get_duplicated_values values = [] ↔
      ∀ v ∈ values, ¬1 < values.count v := by
  unfold get_duplicated_values
  rw [List.dedup_eq_nil (values.filter (fun v => decide (1 < values.count v)))]
  rw [List.filter_eq_nil_iff]
  simp only [decide_eq_true_eq]

/-- C8: for a non-empty stocks list, the duplicate check fails with `UNIQUE`
under field `stocks` — the message listing the duplicated warehouse ids
joined by a comma — exactly when some warehouse id occurs more than once,
and succeeds when the warehouse ids are pairwise distinct. -/
theorem check_for_duplicates_in_stocks_spec (stocks_data : List StockInput)
    (hne : stocks_data ≠ []) :
    (check_for_duplicates_in_stocks stocks_data =
        Except.error ⟨some "stocks",
          "Duplicated warehouse ID: " ++ String.intercalate ", "
            (get_duplicated_values (stocks_data.map StockInput.warehouse)),
          ProductErrorCode.UNIQUE, []⟩ ↔
      ∃ w ∈ stocks_data.map StockInput.warehouse,
        1 < (stocks_data.map StockInput.warehouse).count w) ∧
    ((stocks_data.map StockInput.warehouse).Nodup →
      check_for_duplicates_in_stocks stocks_data = Except.ok ()) := by
  constructor
  · constructor
    · intro herr
      by_contra hno
      push_neg at hno
      have hnil : get_duplicated_values
          (stocks_data.map StockInput.warehouse) = [] :=
        (get_duplicated_values_eq_nil_iff _).mpr
          (fun v hv => not_lt.mpr (hno v hv))
      unfold check_for_duplicates_in_stocks at herr
      rw [if_pos hnil] at herr
      cases herr
    · rintro ⟨w, hw, hcnt⟩
      have hnnil : get_duplicated_values
          (stocks_data.map StockInput.warehouse) ≠ [] := by
        intro hc
        exact (get_duplicated_values_eq_nil_iff _).mp hc w hw hcnt
      unfold check_for_duplicates_in_stocks
      rw [if_neg hnnil]
  · intro hnd
    have hnil : get_duplicated_values
        (stocks_data.map StockInput.warehouse) = [] := by
      rw [get_duplicated_values_eq_nil_iff]
      intro v _
      exact not_lt.mpr (List.nodup_iff_count_le_one.mp hnd v)
    unfold check_for_duplicates_in_stocks
    rw [if_pos hnil]

/-- Witness for C8 at the concrete stocks list `[W1, W2, W1]`. -/
theorem check_for_duplicates_in_stocks_spec_witness :
    (check_for_duplicates_in_stocks [⟨"W1", 1⟩, ⟨"W2", 2⟩, ⟨"W1", 3⟩] =
        Except.error ⟨some "stocks",
          "Duplicated warehouse ID: " ++ String.intercalate ", "
            (get_duplicated_values
              (([⟨"W1", 1⟩, ⟨"W2", 2⟩, ⟨"W1", 3⟩] :
                  List StockInput).map StockInput.warehouse)),
          ProductErrorCode.UNIQUE, []⟩ ↔
      ∃ w ∈ ([⟨"W1", 1⟩, ⟨"W2", 2⟩, ⟨"W1", 3⟩] :
            List StockInput).map StockInput.warehouse,
        1 < (([⟨"W1", 1⟩, ⟨"W2", 2⟩, ⟨"W1", 3⟩] :
            List StockInput).map StockInput.warehouse).count w) ∧
    ((([⟨"W1", 1⟩, ⟨"W2", 2⟩, ⟨"W1", 3⟩] :
          List StockInput).map StockInput.warehouse).Nodup →
      check_for_duplicates_in_stocks [⟨"W1", 1⟩, ⟨"W2", 2⟩, ⟨"W1", 3⟩] =
        Except.ok ()) :=
  check_for_duplicates_in_stocks_spec [⟨"W1", 1⟩, ⟨"W2", 2⟩, ⟨"W1", 3⟩]
    (by decide)

/-! Helper lemmas about `save`. -/

theorem stock_step_frame (env : SaveEnv) (cleaned_input : CleanedInput)
    (s s4 : SaveState) (h : stock_step env cleaned_input s = Except.ok s4) :
    s4.events = s.events ∧
    s4.product_default_variant = s.product_default_variant ∧
    s4.product_saves = s.product_saves := by
  unfold stock_step at h
  split at h
  · split at h
    · obtain rfl := Except.ok.injEq .. ▸ h
      simp [create_stocks]
    · cases h
  · obtain rfl := Except.ok.injEq .. ▸ h
    exact ⟨rfl, rfl, rfl⟩

theorem attr_step_frame (env : SaveEnv) (cleaned_input : CleanedInput)
    (s s5 : SaveState) (h : attr_step env cleaned_input s = Except.ok s5) :
    s5.events = s.events ∧
    s5.product_default_variant = s.product_default_variant ∧
    s5.product_saves = s.product_saves := by
  unfold attr_step at h
  split at h
  · split at h
    · obtain rfl := Except.ok.injEq .. ▸ h
      exact ⟨rfl, rfl, rfl⟩
    · cases h
  · obtain rfl := Except.ok.injEq .. ▸ h
    exact ⟨rfl, rfl, rfl⟩

theorem save_steps_ok_spec (env : SaveEnv) (cleaned_input : CleanedInput)
    (s0 s' : SaveState)
    (h : save_steps env cleaned_input s0 = Except.ok s') :
    s'.events = s0.events ++
      [if s0.instance_pk = none then VariantEvent.created
        else VariantEvent.updated] ∧
    s'.product_default_variant =
      (if s0.product_default_variant = none
        then some (s0.instance_pk.getD s0.next_pk)
        else s0.product_default_variant) ∧
    s'.product_saves =
      (if s0.product_default_variant = none
        then s0.product_saves ++ [["default_variant", "updated_at"]]
        else s0.product_saves) := by
  unfold save_steps at h
  dsimp only at h
  split at h
  · cases h
  next s4 hst =>
    split at h
    · cases h
    next s5 hat =>
      obtain ⟨hev4, hdv4, hps4⟩ := stock_step_frame env cleaned_input _ s4 hst
      obtain ⟨hev5, hdv5, hps5⟩ := attr_step_frame env cleaned_input s4 s5 hat
      obtain rfl := Except.ok.injEq .. ▸ h
      by_cases hdv : s0.product_default_variant = none <;>
        by_cases hn : (s5.instance_name.getD "") = "" <;>
          simp_all

/-! Claim theorems about `save`. -/

/-- C5: the save steps run inside one atomic transaction — when any step
fails, the observable state is exactly the state before the call, so no
partially-persisted effect (variant row, default-variant pointer, enqueued
task, stock rows, attribute links, name, search vector, event) remains. -/
theorem save_transaction_atomic (env : SaveEnv)
    (cleaned_input : CleanedInput) (s0 : SaveState) (e : VError)
    (h : (save_transaction env cleaned_input s0).2 = some e) :
    (save_transaction env cleaned_input s0).1 = s0 := by
  unfold save_transaction at h ⊢
  cases hs : save_steps env cleaned_input s0 with
  | ok s => rw [hs] at h; simp at h
  | error e2 => rfl

/-- Witness for C5: a failing warehouse resolution rolls the whole
transaction back to the initial state. -/
theorem save_transaction_atomic_witness :
    (save_transaction
        ⟨fun _ => Except.error ⟨none, "Couldn't resolve to a node.",
            ProductErrorCode.NOT_FOUND, []⟩,
          fun _ => Except.ok (), fun _ => "generated"⟩
        ⟨[⟨"W1", 5⟩], [], none⟩
        ⟨none, none, 7, none, [], [], [], none, false, [], 42⟩).1 =
      ⟨none, none, 7, none, [], [], [], none, false, [], 42⟩ :=
  save_transaction_atomic
    ⟨fun _ => Except.error ⟨none, "Couldn't resolve to a node.",
        ProductErrorCode.NOT_FOUND, []⟩,
      fun _ => Except.ok (), fun _ => "generated"⟩
    ⟨[⟨"W1", 5⟩], [], none⟩
    ⟨none, none, 7, none, [], [], [], none, false, [], 42⟩
    ⟨none, "Couldn't resolve to a node.", ProductErrorCode.NOT_FOUND, []⟩
    rfl

/-- C6: every successful save emits exactly one lifecycle event, chosen by
whether the instance had a primary key before persisting: created when it
had none, updated otherwise; saving an already-persisted variant emits
updated, never created. -/
theorem save_lifecycle_event_spec (env : SaveEnv)
    (cleaned_input : CleanedInput) (s0 s' : SaveState)
    (h : save_steps env cleaned_input s0 = Except.ok s') :
    s'.events = s0.events ++
      [if s0.instance_pk = none then VariantEvent.created
        else VariantEvent.updated] ∧
    (s0.instance_pk = none →
      s'.events = s0.events ++ [VariantEvent.created]) ∧
    (∀ pk, s0.instance_pk = some pk →
      s'.events = s0.events ++ [VariantEvent.updated]) := by
  obtain ⟨hev, _, _⟩ := save_steps_ok_spec env cleaned_input s0 s' h
  refine ⟨hev, fun hnone => ?_, fun pk hsome => ?_⟩
  · rw [hev, if_pos hnone]
  · rw [hev, if_neg (by rw [hsome]; intro hc; cases hc)]

/-- Witness for C6: saving an already-persisted variant (pk 5) emits exactly
one updated event. -/
theorem save_lifecycle_event_spec_witness :
    (⟨some 5, some "n", 7, some 5, [], [7], [], none, true,
        [VariantEvent.updated], 42⟩ : SaveState).events =
      (⟨some 5, some "n", 7, some 5, [], [], [], none, false, [],
          42⟩ : SaveState).events ++
        [if (⟨some 5, some "n", 7, some 5, [], [], [], none, false, [],
            42⟩ : SaveState).instance_pk = none then VariantEvent.created
          else VariantEvent.updated] ∧
    ((⟨some 5, some "n", 7, some 5, [], [], [], none, false, [],
        42⟩ : SaveState).instance_pk = none →
      (⟨some 5, some "n", 7, some 5, [], [7], [], none, true,
          [VariantEvent.updated], 42⟩ : SaveState).events =
        (⟨some 5, some "n", 7, some 5, [], [], [], none, false, [],
            42⟩ : SaveState).events ++ [VariantEvent.created]) ∧
    (∀ pk, (⟨some 5, some "n", 7, some 5, [], [], [], none, false, [],
        42⟩ : SaveState).instance_pk = some pk →
      (⟨some 5, some "n", 7, some 5, [], [7], [], none, true,
          [VariantEvent.updated], 42⟩ : SaveState).events =
        (⟨some 5, some "n", 7, some 5, [], [], [], none, false, [],
            42⟩ : SaveState).events ++ [VariantEvent.updated]) :=
  save_lifecycle_event_spec
    ⟨fun ws => Except.ok ws, fun _ => Except.ok (), fun _ => "generated"⟩
    ⟨[], [], none⟩
    ⟨some 5, some "n", 7, some 5, [], [], [], none, false, [], 42⟩
    ⟨some 5, some "n", 7, some 5, [], [7], [], none, true,
      [VariantEvent.updated], 42⟩
    rfl

/-- C7: on a successful save, an unset default-variant pointer is set to the
saved instance and persisted through a product save writing only the
`default_variant` and `updated_at` fields; a pointer that is already set is
left unchanged and no product save happens in this step. -/
theorem save_default_variant_once (env : SaveEnv)
    (cleaned_input : CleanedInput) (s0 s' : SaveState)
    (h : save_steps env cleaned_input s0 = Except.ok s') :
    (s0.product_default_variant = none →
      s'.product_default_variant = some (s0.instance_pk.getD s0.next_pk) ∧
      s'.product_saves =
        s0.product_saves ++ [["default_variant", "updated_at"]]) ∧
    (∀ d, s0.product_default_variant = some d →
      s'.product_default_variant = some d ∧
      s'.product_saves = s0.product_saves) := by
  obtain ⟨_, hdv, hps⟩ := save_steps_ok_spec env cleaned_input s0 s' h
  constructor
  · intro hnone
    rw [hdv, hps, if_pos hnone, if_pos hnone]
    exact ⟨rfl, rfl⟩
  · intro d hsome
    have hne : ¬s0.product_default_variant = none := by
      rw [hsome]; intro hc; cases hc
    rw [hdv, hps, if_neg hne, if_neg hne]
    exact ⟨hsome, rfl⟩

/-- Witness for C7: a fresh product (no default variant) gets its pointer
set to the newly assigned pk 42 with one product save of exactly the
`default_variant` and `updated_at` fields. -/
theorem save_default_variant_once_witness :
    ((⟨none, none, 7, none, [], [], [], none, false, [],
        42⟩ : SaveState).product_default_variant = none →
      (⟨some 42, some "generated", 7, some 42,
          [["default_variant", "updated_at"]], [7], [], none, true,
          [VariantEvent.created], 42⟩ : SaveState).product_default_variant =
        some ((⟨none, none, 7, none, [], [], [], none, false, [],
          42⟩ : SaveState).instance_pk.getD
            (⟨none, none, 7, none, [], [], [], none, false, [],
              42⟩ : SaveState).next_pk) ∧
      (⟨some 42, some "generated", 7, some 42,
          [["default_variant", "updated_at"]], [7], [], none, true,
          [VariantEvent.created], 42⟩ : SaveState).product_saves =
        (⟨none, none, 7, none, [], [], [], none, false, [],
            42⟩ : SaveState).product_saves ++
          [["default_variant", "updated_at"]]) ∧
    (∀ d, (⟨none, none, 7, none, [], [], [], none, false, [],
        42⟩ : SaveState).product_default_variant = some d →
      (⟨some 42, some "generated", 7, some 42,
          [["default_variant", "updated_at"]], [7], [], none, true,
          [VariantEvent.created], 42⟩ : SaveState).product_default_variant =
        some d ∧
      (⟨some 42, some "generated", 7, some 42,
          [["default_variant", "updated_at"]], [7], [], none, true,
          [VariantEvent.created], 42⟩ : SaveState).product_saves =
        (⟨none, none, 7, none, [], [], [], none, false, [],
            42⟩ : SaveState).product_saves) :=
  save_default_variant_once
    ⟨fun ws => Except.ok ws, fun _ => Except.ok (), fun _ => "generated"⟩
    ⟨[], [], none⟩
    ⟨none, none, 7, none, [], [], [], none, false, [], 42⟩
    ⟨some 42, some "generated", 7, some 42,
      [["default_variant", "updated_at"]], [7], [], none, true,
      [VariantEvent.created], 42⟩
    rfl

end SaleorVariant
